import Mathlib

/-!
Shallow embedding of the PDF-ai backend (src/backend) for verification.

The embedding models the two request handlers of src/backend/main.py
(upload_pdf and ask_endpoint), the document store of src/backend/models.py
together with its unique filename constraint, and the question-answering
wrapper of src/backend/qa_engine.py.  External collaborators (the PDF text
extractor, the LLM retrieval engine, the filesystem write/delete
operations and the incremental body reader) are passed in as explicit
oracle arguments, so the handlers become total functions on an explicit
system state.  Nat timestamps stand for datetime values; the upload
directory is modelled as the flat list of filenames it holds.
-/

/-- A row of the documents table (src/backend/models.py, class Document):
integer primary key, unique filename, upload_time, extracted text. -/
structure Doc where
  id : Nat
  filename : String
  uploadTime : Nat
  content : String
deriving DecidableEq

/-- The state visible to the handlers: the files present in the upload
directory, the rows of the documents table in insertion order, the next
primary key the store will assign, and the current clock value. -/
structure SysState where
  fsFiles : List String
  docs : List Doc
  nextId : Nat
  now : Nat
deriving DecidableEq

/-- Python str.strip with no argument, as used on extracted text and on
the question: remove leading and trailing whitespace. -/
def pyStrip (s : String) : String :=
  String.mk
    (((s.toList.dropWhile Char.isWhitespace).reverse.dropWhile
        Char.isWhitespace).reverse)

/-- Python str.lower on the filename extension. -/
def lowerStr (s : String) : String :=
  String.mk (s.toList.map Char.toLower)

/-- MAX_FILE_SIZE from src/backend/main.py line 54: 10 MiB. -/
def MAX_FILE_SIZE : Nat := 10 * 1024 * 1024

/-- chunk_size from src/backend/main.py line 76: 1 MiB. -/
def CHUNK_SIZE : Nat := 1024 * 1024

/-- Outcome of the size-bounded read loop: either the whole body was
consumed, or the read aborted because the cumulative size exceeded
MAX_FILE_SIZE.  tooLarge records the bytes already appended to the
buffer and the cumulative count (buffer plus offending chunk). -/
inductive ReadOutcome where
  | done (size : Nat)
  | tooLarge (buffered : Nat) (cumulative : Nat)
deriving DecidableEq

/-- The sizes of the successive chunks an ideal reader returns for a body
of n bytes when asked for CHUNK_SIZE bytes at a time (full chunks, then
the remainder, then EOF). -/
def chunkSizes (n : Nat) : List Nat :=
  List.replicate (n / CHUNK_SIZE) CHUNK_SIZE ++
    (if n % CHUNK_SIZE = 0 then [] else [n % CHUNK_SIZE])

/-- The read loop of src/backend/main.py lines 77-84 over an explicit
list of chunk sizes.  Each iteration adds the chunk to the running size
and aborts with a 400-class error before appending the chunk to the
buffer when the cumulative size exceeds MAX_FILE_SIZE.  The second
component records the total body bytes held in memory (buffer plus the
chunk just read) at each iteration, for the memory bound. -/
def readChunksLoop : List Nat → Nat → ReadOutcome × List Nat
  | [], buffered => (ReadOutcome.done buffered, [])
  | ch :: rest, buffered =>
    let cumulative := buffered + ch
    if cumulative > MAX_FILE_SIZE then
      (ReadOutcome.tooLarge buffered cumulative, [cumulative])
    else
      let r := readChunksLoop rest cumulative
      (r.1, cumulative :: r.2)

/-- The whole size-bounded read of a body of n bytes. -/
def readLoop (n : Nat) : ReadOutcome × List Nat :=
  readChunksLoop (chunkSizes n) 0

/-- os.path.splitext on a plain filename (no directory separators),
character-list version: the extension starts at the last dot, unless
every character before that dot is itself a dot, in which case the
extension is empty (CPython semantics for names like .bashrc). -/
def splitextChars (s : List Char) : List Char × List Char :=
  let revTail := s.reverse.takeWhile (fun c => c ≠ '.')
  if revTail.length = s.length then (s, [])
  else
    let pre := s.take (s.length - revTail.length - 1)
    if pre.all (fun c => c = '.') then (s, [])
    else (pre, '.' :: revTail.reverse)

/-- os.path.splitext on a plain filename, as used at
src/backend/main.py line 92. -/
def splitext (s : String) : String × String :=
  let p := splitextChars s.toList
  (String.mk p.1, String.mk p.2)

/-- The k-th candidate filename tried by the collision-resolution loop:
the original name for k = 0, then base_k ext for k greater than 0. -/
def mkCandidate (base ext orig : String) : Nat → String
  | 0 => orig
  | Nat.succ k => base ++ "_" ++ toString (k + 1) ++ ext

/-- The duplicate-filename loop of src/backend/main.py lines 99-121:
while the current candidate exists in the upload directory, or exists as
a filename in the documents table, rewrite it as base_counter ext and
increment the counter (which starts at 1).  Fuel makes the recursion
structural; none means the fuel ran out, which a sufficiently large fuel
avoids. -/
def resolveLoop (fs dbNames : List String) (base ext : String) :
    Nat → Nat → String → Option String
  | 0, _, _ => none
  | Nat.succ fuel, counter, current =>
    if current ∈ fs then
      resolveLoop fs dbNames base ext fuel (counter + 1)
        (base ++ "_" ++ toString counter ++ ext)
    else if current ∈ dbNames then
      resolveLoop fs dbNames base ext fuel (counter + 1)
        (base ++ "_" ++ toString counter ++ ext)
    else some current

/-- The store-level insert (src/backend/models.py: filename is declared
unique, so the insert of a duplicate filename fails with an integrity
error, a SQLAlchemyError; src/backend/main.py lines 144-150 performs
this insert with id assigned by the store and upload_time defaulted to
the current clock). -/
def insertDoc (st : SysState) (fn content : String) : Except String SysState :=
  if fn ∈ st.docs.map Doc.filename then
    Except.error "UNIQUE constraint failed: documents.filename"
  else
    Except.ok { st with
      docs := st.docs ++ [⟨st.nextId, fn, st.now, content⟩],
      nextId := st.nextId + 1 }

/-- Concurrent uploads committed by other requests between this request's
uniqueness pre-check and its own insert (the documented check-then-reserve
race of the design): each raced pair (filename, content) is inserted
through the same constrained store insert, a failed raced insert leaving
the store unchanged. -/
def applyRaced (st : SysState) (raced : List (String × String)) : SysState :=
  raced.foldl
    (fun s p =>
      match insertDoc s p.1 p.2 with
      | Except.ok s2 => s2
      | Except.error _ => s)
    st

/-- Result of the upload handler: the success payload of
src/backend/main.py lines 158-163, or an HTTPException with its status
code and detail string. -/
inductive UpResult where
  | ok (filename : String) (size : Nat) (textLen : Nat)
  | err (status : Nat) (detail : String)
deriving DecidableEq

/-- The tail of upload_pdf after a unique filename has been resolved
(src/backend/main.py lines 123-163): write the file (writeOk oracle;
an IOError becomes a 500), run the extraction collaborator (ex oracle;
an exception, or extracted text that strips to empty, triggers the
compensating delete and a 422 — note the inner 400 FileValidationError
raised for whitespace text is itself caught by the surrounding except
and re-raised as the 422), then insert the row (a SQLAlchemyError from
the unique constraint triggers the compensating delete and a 500).  The
compensating os.remove is NOT guarded: when it fails (removeOk false)
its exception escapes the except block and the outer handler of lines
167-169 answers 500 with the generic message, the file staying on
disk. -/
def uploadTail (st : SysState) (final : String) (sz : Nat) :
    Except String String → Bool → Bool → List (String × String) →
      SysState × UpResult
  | _, false, _, _ => (st, UpResult.err 500 "Failed to save file")
  | Except.error _, true, true, _ =>
    ({ st with fsFiles := (st.fsFiles ++ [final]).erase final },
      UpResult.err 422 "Failed to extract text from PDF")
  | Except.error _, true, false, _ =>
    ({ st with fsFiles := st.fsFiles ++ [final] },
      UpResult.err 500 "An unexpected error occurred")
  | Except.ok text, true, rem, raced =>
    if pyStrip text = "" then
      (if rem then
        ({ st with fsFiles := (st.fsFiles ++ [final]).erase final },
          UpResult.err 422 "Failed to extract text from PDF")
      else
        ({ st with fsFiles := st.fsFiles ++ [final] },
          UpResult.err 500 "An unexpected error occurred"))
    else
      match insertDoc
          (applyRaced { st with fsFiles := st.fsFiles ++ [final] } raced)
          final text with
      | Except.ok stN => (stN, UpResult.ok final sz text.length)
      | Except.error _ =>
        if rem then
          ({ applyRaced { st with fsFiles := st.fsFiles ++ [final] } raced with
              fsFiles :=
                ((applyRaced { st with fsFiles := st.fsFiles ++ [final] }
                  raced).fsFiles).erase final },
            UpResult.err 500 "Failed to save document to database")
        else
          (applyRaced { st with fsFiles := st.fsFiles ++ [final] } raced,
            UpResult.err 500 "An unexpected error occurred")

/-- upload_pdf of src/backend/main.py lines 64-169: content-type gate,
size-bounded read, filename presence and extension gates, the
duplicate-filename resolution loop (with explicit fuel; none models only
fuel exhaustion of the embedding), then the write/extract/insert tail. -/
def uploadPdf (st : SysState) (contentType fname : String) (bodyLen : Nat)
    (ex : Except String String) (writeOk removeOk : Bool)
    (raced : List (String × String)) (fuel : Nat) :
    Option (SysState × UpResult) :=
  if contentType ≠ "application/pdf" then
    some (st, UpResult.err 400
      ("Invalid file type: " ++ contentType ++ ". Only PDF files are allowed."))
  else
    match (readLoop bodyLen).1 with
    | ReadOutcome.tooLarge _ _ =>
      some (st, UpResult.err 400 "File size exceeds maximum limit of 10.0MB")
    | ReadOutcome.done sz =>
      if fname = "" then
        some (st, UpResult.err 400 "No filename provided")
      else if lowerStr (splitext fname).2 ≠ ".pdf" then
        some (st, UpResult.err 400 "File must have .pdf extension")
      else
        match resolveLoop st.fsFiles (st.docs.map Doc.filename)
            (splitext fname).1 (splitext fname).2 fuel 1 fname with
        | none => none
        | some final =>
          some (uploadTail st final sz ex writeOk removeOk raced)

/-- The query of src/backend/main.py lines 193-196: select the Document
ordered by id descending, limit 1 — that is, the row with the greatest
id. -/
def latestStepId (acc : Option Doc) (d : Doc) : Option Doc :=
  match acc with
  | none => some d
  | some m => if m.id < d.id then some d else some m

/-- The query of src/backend/main.py lines 193-196 as a fold of the step
above: the row with the greatest id. -/
def latestByIdQ (docs : List Doc) : Option Doc :=
  docs.foldl latestStepId none

/-- The selection the specification describes for the answer pipeline:
the Document with the most recent uploadedAt, ties broken by the highest
id.  Stated from the specification text, to be compared with the
implemented selection latestByIdQ. -/
def latestStepTime (acc : Option Doc) (d : Doc) : Option Doc :=
  match acc with
  | none => some d
  | some m =>
    if m.uploadTime < d.uploadTime ∨
        (m.uploadTime = d.uploadTime ∧ m.id < d.id) then some d
    else some m

/-- The selection the specification describes, as a fold of the step
above. -/
def latestBySpecOrder (docs : List Doc) : Option Doc :=
  docs.foldl latestStepTime none

/-- ask_question of src/backend/qa_engine.py lines 40-54: build an index
over the context and query the external engine (the engine oracle); any
exception inside the try, including the ValueError raised by
create_index_from_document on empty content, is caught and RETURNED as
an error string rather than raised. -/
def ask_question (_question context : String)
    (engine : Except String String) : String :=
  if context = "" then
    "Error processing your question: No document content provided."
  else
    match engine with
    | Except.ok ans => ans
    | Except.error e => "Error processing your question: " ++ e

/-- The response of the ask endpoint, instrumented with whether the
store was queried and whether the external engine was invoked.  The
confidence field of the Answer model is a fixed constant in the source
and is omitted. -/
structure AskResp where
  status : Nat
  answer : Option String
  documentName : Option String
  detail : Option String
  storeQueried : Bool
  engineCalled : Bool
deriving DecidableEq

/-- ask_endpoint of src/backend/main.py lines 184-239: reject a question
that strips to empty with a 400 before opening a session; query the
latest document (dbFails oracle: a SQLAlchemyError becomes a 500 with a
generic detail); 404 when the store is empty; 422 when the stored
content is empty or whitespace; otherwise call ask_question and answer
200 with its string result and the document filename. -/
def ask_endpoint (st : SysState) (q : String)
    (engine : Except String String) (dbFails : Bool) : AskResp :=
  if pyStrip q = "" then
    ⟨400, none, none, some "Question cannot be empty", false, false⟩
  else if dbFails then
    ⟨500, none, none, some "Database error occurred while retrieving document",
      true, false⟩
  else
    match latestByIdQ st.docs with
    | none =>
      ⟨404, none, none, some "No document found. Please upload a PDF first.",
        true, false⟩
    | some d =>
      if pyStrip d.content = "" then
        ⟨422, none, none, some "The uploaded document contains no text content",
          true, false⟩
      else
        ⟨200, some (ask_question q d.content engine), some d.filename,
          none, true, true⟩

/-- Clock advance between requests. -/
def advance (st : SysState) (dt : Nat) : SysState :=
  { st with now := st.now + dt }

/-- Invariant: no two rows of the documents table share a filename. -/
def filenamesNodup (st : SysState) : Prop :=
  (st.docs.map Doc.filename).Nodup

/-- Invariant: rows are ordered by strictly increasing id and
non-decreasing upload time, every id is below the next id the store will
assign, and no upload time is in the future. -/
def docsOrdered (st : SysState) : Prop :=
  List.Chain' (fun a b => a.id < b.id ∧ a.uploadTime ≤ b.uploadTime) st.docs ∧
  (∀ d ∈ st.docs, d.id < st.nextId ∧ d.uploadTime ≤ st.now)

/-- Invariant: every persisted row has content that does not strip to
the empty string. -/
def contentsNonWs (st : SysState) : Prop :=
  ∀ d ∈ st.docs, pyStrip d.content ≠ ""

/-- The state of a freshly initialised deployment: empty upload
directory, empty table, first id 1. -/
def stInit : SysState := ⟨[], [], 1, 0⟩

/-- A state holding one document, used for concrete evaluations. -/
def stOne : SysState := ⟨["doc.pdf"], [⟨1, "doc.pdf", 0, "Some content"⟩], 2, 1⟩

/-- The HTTP status the upload handler answers with: the error status of
an HTTPException, or 200 for the success payload. -/
def upStatusOf : Option (SysState × UpResult) → Option Nat
  | some (_, UpResult.err s _) => some s
  | some (_, UpResult.ok _ _ _) => some 200
  | none => none

/-! Lemmas about the size-bounded read loop. -/

theorem readChunksLoop_tooLarge_le (chunks : List Nat) :
    ∀ b b2 c, b ≤ MAX_FILE_SIZE →
      (readChunksLoop chunks b).1 = ReadOutcome.tooLarge b2 c →
      b2 ≤ MAX_FILE_SIZE ∧ MAX_FILE_SIZE < c := by
  induction chunks with
  | nil =>
    intro b b2 c hb h
    simp [readChunksLoop] at h
  | cons ch rest ih =>
    intro b b2 c hb h
    simp only [readChunksLoop] at h
    split at h
    · simp only [Prod.fst] at h
      cases h
      exact ⟨hb, by omega⟩
    · simp only [Prod.fst] at h
      exact ih (b + ch) b2 c (by omega) h

theorem readChunksLoop_trace_le (chunks : List Nat) :
    ∀ b, (∀ ch ∈ chunks, ch ≤ CHUNK_SIZE) → b ≤ MAX_FILE_SIZE →
      ∀ x ∈ (readChunksLoop chunks b).2, x ≤ MAX_FILE_SIZE + CHUNK_SIZE := by
  induction chunks with
  | nil =>
    intro b _ _ x hx
    simp [readChunksLoop] at hx
  | cons ch rest ih =>
    intro b hch hb x hx
    have hch1 : ch ≤ CHUNK_SIZE := hch ch (by simp)
    simp only [readChunksLoop] at hx
    split at hx
    · simp only [Prod.snd, List.mem_singleton] at hx
      omega
    · simp only [Prod.snd, List.mem_cons] at hx
      rcases hx with rfl | hx
      · omega
      · exact ih (b + ch) (fun c hc => hch c (by simp [hc])) (by omega) x hx

theorem readChunksLoop_aborts (chunks : List Nat) :
    ∀ b, b ≤ MAX_FILE_SIZE → MAX_FILE_SIZE < b + chunks.sum →
      ∃ b2 c, (readChunksLoop chunks b).1 = ReadOutcome.tooLarge b2 c ∧
        b2 ≤ MAX_FILE_SIZE ∧ b2 < b + chunks.sum := by
  induction chunks with
  | nil =>
    intro b hb hsum
    simp at hsum
    omega
  | cons ch rest ih =>
    intro b hb hsum
    simp only [readChunksLoop]
    split
    · refine ⟨b, b + ch, rfl, hb, ?_⟩
      simp only [List.sum_cons]
      omega
    · rename_i hcond
      have hble : b + ch ≤ MAX_FILE_SIZE := by omega
      have hsum2 : MAX_FILE_SIZE < (b + ch) + rest.sum := by
        simp only [List.sum_cons] at hsum
        omega
      obtain ⟨b2, c, heq, hle, hlt⟩ := ih (b + ch) hble hsum2
      refine ⟨b2, c, heq, hle, ?_⟩
      simp only [List.sum_cons]
      omega

theorem chunkSizes_le (n : Nat) : ∀ ch ∈ chunkSizes n, ch ≤ CHUNK_SIZE := by
  intro ch h
  unfold chunkSizes at h
  rcases List.mem_append.1 h with h1 | h2
  · exact Nat.le_of_eq (List.eq_of_mem_replicate h1)
  · split at h2
    · simp at h2
    · simp only [List.mem_singleton] at h2
      subst h2
      exact Nat.le_of_lt (Nat.mod_lt n (by decide))

theorem chunkSizes_sum (n : Nat) : (chunkSizes n).sum = n := by
  unfold chunkSizes
  split
  · rename_i h
    simp only [List.sum_append, List.sum_replicate, List.sum_nil, smul_eq_mul]
    have h1 := Nat.div_add_mod n CHUNK_SIZE
    have h2 : n / CHUNK_SIZE * CHUNK_SIZE = CHUNK_SIZE * (n / CHUNK_SIZE) :=
      Nat.mul_comm _ _
    omega
  · simp only [List.sum_append, List.sum_replicate, List.sum_cons, List.sum_nil,
      smul_eq_mul]
    have h1 := Nat.div_add_mod n CHUNK_SIZE
    have h2 : n / CHUNK_SIZE * CHUNK_SIZE = CHUNK_SIZE * (n / CHUNK_SIZE) :=
      Nat.mul_comm _ _
    omega

theorem readLoop_aborts (n : Nat) (h : MAX_FILE_SIZE < n) :
    ∃ b c, (readLoop n).1 = ReadOutcome.tooLarge b c ∧
      b ≤ MAX_FILE_SIZE ∧ b < n := by
  have hs := chunkSizes_sum n
  obtain ⟨b, c, heq, hle, hlt⟩ :=
    readChunksLoop_aborts (chunkSizes n) 0 (by omega) (by omega)
  exact ⟨b, c, heq, hle, by omega⟩

/-! Lemmas about the filename-collision resolution loop. -/

theorem resolveLoop_free (fs db : List String) (base ext : String) :
    ∀ fuel counter current r,
      resolveLoop fs db base ext fuel counter current = some r →
      r ∉ fs ∧ r ∉ db := by
  intro fuel
  induction fuel with
  | zero =>
    intro counter current r h
    simp [resolveLoop] at h
  | succ fuel ih =>
    intro counter current r h
    simp only [resolveLoop] at h
    split at h
    · exact ih _ _ r h
    · split at h
      · exact ih _ _ r h
      · rename_i h1 h2
        cases h
        exact ⟨h1, h2⟩

theorem resolveLoop_char (fs db : List String) (base ext orig : String) :
    ∀ fuel k r,
      resolveLoop fs db base ext fuel (k + 1) (mkCandidate base ext orig k) =
        some r →
      ∃ m, k ≤ m ∧ r = mkCandidate base ext orig m ∧
        mkCandidate base ext orig m ∉ fs ∧ mkCandidate base ext orig m ∉ db ∧
        ∀ j, k ≤ j → j < m →
          (mkCandidate base ext orig j ∈ fs ∨ mkCandidate base ext orig j ∈ db) := by
  intro fuel
  induction fuel with
  | zero =>
    intro k r h
    simp [resolveLoop] at h
  | succ fuel ih =>
    intro k r h
    simp only [resolveLoop] at h
    have hcand : base ++ "_" ++ toString (k + 1) ++ ext =
        mkCandidate base ext orig (k + 1) := rfl
    split at h
    · rename_i hmem
      rw [hcand] at h
      obtain ⟨m, hkm, hr, hffs, hfdb, hall⟩ := ih (k + 1) r h
      refine ⟨m, by omega, hr, hffs, hfdb, ?_⟩
      intro j hkj hjm
      rcases Nat.eq_or_lt_of_le hkj with rfl | hlt
      · exact Or.inl hmem
      · exact hall j hlt hjm
    · split at h
      · rename_i hmem
        rw [hcand] at h
        obtain ⟨m, hkm, hr, hffs, hfdb, hall⟩ := ih (k + 1) r h
        refine ⟨m, by omega, hr, hffs, hfdb, ?_⟩
        intro j hkj hjm
        rcases Nat.eq_or_lt_of_le hkj with rfl | hlt
        · exact Or.inr hmem
        · exact hall j hlt hjm
      · rename_i h1 h2
        cases h
        exact ⟨k, Nat.le_refl k, rfl, h1, h2, fun j hkj hjk => absurd hkj (by omega)⟩

/-! Lemmas about the constrained store insert and the raced inserts. -/

theorem insertDoc_ok_shape {st st2 : SysState} {fn c : String}
    (h : insertDoc st fn c = Except.ok st2) :
    st2.docs = st.docs ++ [⟨st.nextId, fn, st.now, c⟩] ∧
      st2.fsFiles = st.fsFiles ∧ st2.nextId = st.nextId + 1 ∧
      st2.now = st.now ∧ fn ∉ st.docs.map Doc.filename := by
  unfold insertDoc at h
  split at h
  · cases h
  · rename_i hmem
    cases h
    exact ⟨rfl, rfl, rfl, rfl, hmem⟩

theorem insertDoc_error_of_mem (st : SysState) (fn c : String)
    (h : fn ∈ st.docs.map Doc.filename) :
    insertDoc st fn c = Except.error "UNIQUE constraint failed: documents.filename" := by
  unfold insertDoc
  simp [h]

theorem insertDoc_nodup {st st2 : SysState} {fn c : String}
    (h : insertDoc st fn c = Except.ok st2) (hn : filenamesNodup st) :
    filenamesNodup st2 := by
  obtain ⟨hdocs, -, -, -, hmem⟩ := insertDoc_ok_shape h
  unfold filenamesNodup at hn ⊢
  rw [hdocs, List.map_append]
  simp only [List.map_cons, List.map_nil]
  rw [List.nodup_append]
  refine ⟨hn, List.nodup_singleton _, ?_⟩
  intro a ha hb
  simp only [List.mem_singleton] at hb
  subst hb
  exact hmem ha

theorem mem_of_getLast?_eq {α : Type} : ∀ (l : List α) (a : α),
    l.getLast? = some a → a ∈ l := by
  intro l
  induction l with
  | nil => intro a h; simp at h
  | cons x xs ih =>
    intro a h
    cases xs with
    | nil =>
      simp only [List.getLast?_singleton] at h
      cases h
      simp
    | cons y ys =>
      rw [List.getLast?_cons_cons] at h
      exact List.mem_cons_of_mem x (ih a h)

theorem insertDoc_ordered {st st2 : SysState} {fn c : String}
    (h : insertDoc st fn c = Except.ok st2) (ho : docsOrdered st) :
    docsOrdered st2 := by
  obtain ⟨hdocs, -, hnext, hnow, -⟩ := insertDoc_ok_shape h
  obtain ⟨hchain, hbound⟩ := ho
  constructor
  · rw [hdocs]
    apply List.Chain'.append hchain (List.chain'_singleton _)
    intro x hx y hy
    simp only [List.head?_cons, Option.mem_def, Option.some.injEq] at hy
    subst hy
    have hxmem : x ∈ st.docs := mem_of_getLast?_eq _ _ hx
    obtain ⟨h1, h2⟩ := hbound x hxmem
    exact ⟨h1, h2⟩
  · intro d hd
    rw [hdocs] at hd
    rcases List.mem_append.1 hd with h1 | h2
    · obtain ⟨ha, hb⟩ := hbound d h1
      rw [hnext, hnow]
      exact ⟨by omega, hb⟩
    · simp only [List.mem_singleton] at h2
      subst h2
      rw [hnext, hnow]
      refine ⟨?_, ?_⟩
      · show st.nextId < st.nextId + 1
        omega
      · show st.now ≤ st.now
        exact Nat.le_refl _

theorem insertDoc_contents {st st2 : SysState} {fn c : String}
    (h : insertDoc st fn c = Except.ok st2) (hc : contentsNonWs st)
    (hx : pyStrip c ≠ "") : contentsNonWs st2 := by
  obtain ⟨hdocs, -, -, -, -⟩ := insertDoc_ok_shape h
  intro d hd
  rw [hdocs] at hd
  rcases List.mem_append.1 hd with h1 | h2
  · exact hc d h1
  · simp only [List.mem_singleton] at h2
    subst h2
    exact hx

theorem applyRaced_cons (st : SysState) (p : String × String)
    (rest : List (String × String)) :
    applyRaced st (p :: rest) =
      applyRaced
        (match insertDoc st p.1 p.2 with
          | Except.ok s2 => s2
          | Except.error _ => st) rest := rfl

theorem applyRaced_nodup (raced : List (String × String)) :
    ∀ st, filenamesNodup st → filenamesNodup (applyRaced st raced) := by
  induction raced with
  | nil => intro st h; exact h
  | cons p rest ih =>
    intro st h
    rw [applyRaced_cons]
    cases hins : insertDoc st p.1 p.2 with
    | ok s2 =>
      simp only [hins]
      exact ih s2 (insertDoc_nodup hins h)
    | error e =>
      simp only [hins]
      exact ih st h

theorem applyRaced_ordered (raced : List (String × String)) :
    ∀ st, docsOrdered st → docsOrdered (applyRaced st raced) := by
  induction raced with
  | nil => intro st h; exact h
  | cons p rest ih =>
    intro st h
    rw [applyRaced_cons]
    cases hins : insertDoc st p.1 p.2 with
    | ok s2 =>
      simp only [hins]
      exact ih s2 (insertDoc_ordered hins h)
    | error e =>
      simp only [hins]
      exact ih st h

theorem applyRaced_contents (raced : List (String × String))
    (hr : ∀ p ∈ raced, pyStrip p.2 ≠ "") :
    ∀ st, contentsNonWs st → contentsNonWs (applyRaced st raced) := by
  induction raced with
  | nil => intro st h; exact h
  | cons p rest ih =>
    intro st h
    rw [applyRaced_cons]
    have hr1 : pyStrip p.2 ≠ "" := hr p (by simp)
    have hr2 : ∀ q ∈ rest, pyStrip q.2 ≠ "" := fun q hq => hr q (by simp [hq])
    cases hins : insertDoc st p.1 p.2 with
    | ok s2 =>
      simp only [hins]
      exact ih hr2 s2 (insertDoc_contents hins h hr1)
    | error e =>
      simp only [hins]
      exact ih hr2 st h

theorem applyRaced_frame (raced : List (String × String)) :
    ∀ st, (applyRaced st raced).fsFiles = st.fsFiles ∧
      (applyRaced st raced).now = st.now := by
  induction raced with
  | nil => intro st; exact ⟨rfl, rfl⟩
  | cons p rest ih =>
    intro st
    rw [applyRaced_cons]
    cases hins : insertDoc st p.1 p.2 with
    | ok s2 =>
      simp only [hins]
      obtain ⟨-, hfs, -, hnow, -⟩ := insertDoc_ok_shape hins
      obtain ⟨ih1, ih2⟩ := ih s2
      exact ⟨by rw [ih1, hfs], by rw [ih2, hnow]⟩
    | error e =>
      simp only [hins]
      exact ih st

/-! Lemmas about the write/extract/insert tail of the upload handler. -/

theorem erase_append_self {l : List String} {a : String} (h : a ∉ l) :
    (l ++ [a]).erase a = l := by
  rw [List.erase_append_right _ h, List.erase_cons_head, List.append_nil]

theorem uploadTail_extract_fail (st : SysState) (final : String) (sz : Nat)
    (ex : Except String String) (raced : List (String × String))
    (hex : (∃ e, ex = Except.error e) ∨ ∃ t, ex = Except.ok t ∧ pyStrip t = "")
    (hfree : final ∉ st.fsFiles) :
    uploadTail st final sz ex true true raced =
      (st, UpResult.err 422 "Failed to extract text from PDF") := by
  have herase : (st.fsFiles ++ [final]).erase final = st.fsFiles :=
    erase_append_self hfree
  rcases hex with ⟨e, rfl⟩ | ⟨t, rfl, ht⟩
  · simp only [uploadTail, herase]
  · simp [uploadTail, herase, ht]

theorem uploadTail_extract_fail_noremove (st : SysState) (final : String)
    (sz : Nat) (ex : Except String String) (raced : List (String × String))
    (hex : (∃ e, ex = Except.error e) ∨ ∃ t, ex = Except.ok t ∧ pyStrip t = "") :
    uploadTail st final sz ex true false raced =
      ({ st with fsFiles := st.fsFiles ++ [final] },
        UpResult.err 500 "An unexpected error occurred") := by
  rcases hex with ⟨e, rfl⟩ | ⟨t, rfl, ht⟩
  · simp only [uploadTail]
  · simp [uploadTail, ht]

theorem uploadTail_db_conflict (st : SysState) (final : String) (sz : Nat)
    (t : String) (raced : List (String × String)) (ht : pyStrip t ≠ "")
    (hmem : final ∈
      (applyRaced { st with fsFiles := st.fsFiles ++ [final] } raced).docs.map
        Doc.filename) :
    uploadTail st final sz (Except.ok t) true true raced =
      ({ applyRaced { st with fsFiles := st.fsFiles ++ [final] } raced with
          fsFiles :=
            ((applyRaced { st with fsFiles := st.fsFiles ++ [final] }
              raced).fsFiles).erase final },
        UpResult.err 500 "Failed to save document to database") := by
  simp only [uploadTail, if_neg ht, insertDoc_error_of_mem _ _ t hmem, if_true]

theorem uploadTail_db_conflict_noremove (st : SysState) (final : String)
    (sz : Nat) (t : String) (raced : List (String × String))
    (ht : pyStrip t ≠ "")
    (hmem : final ∈
      (applyRaced { st with fsFiles := st.fsFiles ++ [final] } raced).docs.map
        Doc.filename) :
    uploadTail st final sz (Except.ok t) true false raced =
      (applyRaced { st with fsFiles := st.fsFiles ++ [final] } raced,
        UpResult.err 500 "An unexpected error occurred") := by
  simp only [uploadTail, if_neg ht, insertDoc_error_of_mem _ _ t hmem,
    Bool.false_eq_true, if_false]

theorem uploadTail_ok_facts {st st2 : SysState} {final : String} {sz : Nat}
    {ex : Except String String} {w rem : Bool} {raced : List (String × String)}
    {f : String} {s2 tl : Nat}
    (h : uploadTail st final sz ex w rem raced = (st2, UpResult.ok f s2 tl)) :
    f = final ∧ st2.fsFiles = st.fsFiles ++ [final] ∧ st2.now = st.now ∧
      ∃ text, ex = Except.ok text ∧ pyStrip text ≠ "" ∧
        st2.docs =
          (applyRaced { st with fsFiles := st.fsFiles ++ [final] } raced).docs ++
            [⟨(applyRaced { st with fsFiles := st.fsFiles ++ [final] }
                raced).nextId, final, st.now, text⟩] := by
  cases w with
  | false =>
    simp [uploadTail] at h
  | true =>
    cases ex with
    | error e =>
      cases rem with
      | false => simp [uploadTail] at h
      | true => simp [uploadTail] at h
    | ok text =>
      by_cases ht : pyStrip text = ""
      · cases rem with
        | false => simp [uploadTail, ht] at h
        | true => simp [uploadTail, ht] at h
      · cases hins : insertDoc
            (applyRaced { st with fsFiles := st.fsFiles ++ [final] } raced)
            final text with
        | ok stN =>
          simp only [uploadTail, if_neg ht, hins] at h
          obtain ⟨hdocs, hfs, hnext, hnow, -⟩ := insertDoc_ok_shape hins
          obtain ⟨hrfs, hrnow⟩ := applyRaced_frame raced
            { st with fsFiles := st.fsFiles ++ [final] }
          simp only [Prod.mk.injEq, UpResult.ok.injEq] at h
          obtain ⟨hst, hf, -, -⟩ := h
          subst hst
          refine ⟨hf.symm, ?_, ?_, text, rfl, ht, ?_⟩
          · rw [hfs, hrfs]
          · rw [hnow, hrnow]
          · rw [hdocs, hrnow]
        | error e2 =>
          cases rem with
          | false => simp only [uploadTail, if_neg ht, hins] at h; simp at h
          | true => simp only [uploadTail, if_neg ht, hins] at h; simp at h

theorem uploadTail_nodup {st st2 : SysState} {final : String} {sz : Nat}
    {ex : Except String String} {w rem : Bool} {raced : List (String × String)}
    {r : UpResult}
    (h : uploadTail st final sz ex w rem raced = (st2, r))
    (hn : filenamesNodup st) : filenamesNodup st2 := by
  cases w with
  | false =>
    simp only [uploadTail, Prod.mk.injEq] at h
    obtain ⟨h1, -⟩ := h
    subst h1
    exact hn
  | true =>
    cases ex with
    | error e =>
      cases rem with
      | false =>
        simp only [uploadTail, Prod.mk.injEq] at h
        obtain ⟨h1, -⟩ := h
        subst h1
        exact hn
      | true =>
        simp only [uploadTail, Prod.mk.injEq] at h
        obtain ⟨h1, -⟩ := h
        subst h1
        exact hn
    | ok text =>
      by_cases ht : pyStrip text = ""
      · cases rem with
        | false =>
          simp only [uploadTail, if_pos ht, Prod.mk.injEq] at h
          simp at h
          obtain ⟨h1, -⟩ := h
          subst h1
          exact hn
        | true =>
          simp only [uploadTail, if_pos ht, Prod.mk.injEq] at h
          simp at h
          obtain ⟨h1, -⟩ := h
          subst h1
          exact hn
      · cases hins : insertDoc
            (applyRaced { st with fsFiles := st.fsFiles ++ [final] } raced)
            final text with
        | ok stN =>
          simp only [uploadTail, if_neg ht, hins, Prod.mk.injEq] at h
          obtain ⟨h1, -⟩ := h
          subst h1
          exact insertDoc_nodup hins (applyRaced_nodup raced _ hn)
        | error e2 =>
          cases rem with
          | false =>
            simp only [uploadTail, if_neg ht, hins, Prod.mk.injEq] at h
            simp at h
            obtain ⟨h1, -⟩ := h
            subst h1
            exact applyRaced_nodup raced _ hn
          | true =>
            simp only [uploadTail, if_neg ht, hins, Prod.mk.injEq] at h
            simp at h
            obtain ⟨h1, -⟩ := h
            subst h1
            exact applyRaced_nodup raced _ hn

theorem uploadTail_core {st st2 : SysState} {final : String} {sz : Nat}
    {ex : Except String String} {w rem : Bool} {raced : List (String × String)}
    {r : UpResult}
    (h : uploadTail st final sz ex w rem raced = (st2, r)) :
    (st2.docs = st.docs ∧ st2.nextId = st.nextId ∧ st2.now = st.now) ∨
    (st2.docs = (applyRaced { st with fsFiles := st.fsFiles ++ [final] }
        raced).docs ∧
      st2.nextId = (applyRaced { st with fsFiles := st.fsFiles ++ [final] }
        raced).nextId ∧
      st2.now = (applyRaced { st with fsFiles := st.fsFiles ++ [final] }
        raced).now) ∨
    (∃ text stN, pyStrip text ≠ "" ∧
      insertDoc (applyRaced { st with fsFiles := st.fsFiles ++ [final] } raced)
        final text = Except.ok stN ∧ st2 = stN) := by
  cases w with
  | false =>
    simp only [uploadTail, Prod.mk.injEq] at h
    obtain ⟨h1, -⟩ := h
    subst h1
    exact Or.inl ⟨rfl, rfl, rfl⟩
  | true =>
    cases ex with
    | error e =>
      cases rem with
      | false =>
        simp only [uploadTail, Prod.mk.injEq] at h
        obtain ⟨h1, -⟩ := h
        subst h1
        exact Or.inl ⟨rfl, rfl, rfl⟩
      | true =>
        simp only [uploadTail, Prod.mk.injEq] at h
        obtain ⟨h1, -⟩ := h
        subst h1
        exact Or.inl ⟨rfl, rfl, rfl⟩
    | ok text =>
      by_cases ht : pyStrip text = ""
      · cases rem with
        | false =>
          simp only [uploadTail, if_pos ht, Prod.mk.injEq] at h
          simp at h
          obtain ⟨h1, -⟩ := h
          subst h1
          exact Or.inl ⟨rfl, rfl, rfl⟩
        | true =>
          simp only [uploadTail, if_pos ht, Prod.mk.injEq] at h
          simp at h
          obtain ⟨h1, -⟩ := h
          subst h1
          exact Or.inl ⟨rfl, rfl, rfl⟩
      · cases hins : insertDoc
            (applyRaced { st with fsFiles := st.fsFiles ++ [final] } raced)
            final text with
        | ok stN =>
          simp only [uploadTail, if_neg ht, hins, Prod.mk.injEq] at h
          obtain ⟨h1, -⟩ := h
          subst h1
          exact Or.inr (Or.inr ⟨text, stN, ht, hins, rfl⟩)
        | error e2 =>
          cases rem with
          | false =>
            simp only [uploadTail, if_neg ht, hins, Prod.mk.injEq] at h
            simp at h
            obtain ⟨h1, -⟩ := h
            subst h1
            exact Or.inr (Or.inl ⟨rfl, rfl, rfl⟩)
          | true =>
            simp only [uploadTail, if_neg ht, hins, Prod.mk.injEq] at h
            simp at h
            obtain ⟨h1, -⟩ := h
            subst h1
            exact Or.inr (Or.inl ⟨rfl, rfl, rfl⟩)

theorem docsOrdered_of_core {a b : SysState} (h1 : a.docs = b.docs)
    (h2 : a.nextId = b.nextId) (h3 : a.now = b.now) (hb : docsOrdered b) :
    docsOrdered a := by
  unfold docsOrdered at hb ⊢
  rw [h1, h2, h3]
  exact hb

theorem contentsNonWs_of_core {a b : SysState} (h1 : a.docs = b.docs)
    (hb : contentsNonWs b) : contentsNonWs a := by
  unfold contentsNonWs at hb ⊢
  rw [h1]
  exact hb

theorem uploadTail_ordered {st st2 : SysState} {final : String} {sz : Nat}
    {ex : Except String String} {w rem : Bool} {raced : List (String × String)}
    {r : UpResult}
    (h : uploadTail st final sz ex w rem raced = (st2, r))
    (ho : docsOrdered st) : docsOrdered st2 := by
  rcases uploadTail_core h with ⟨h1, h2, h3⟩ | ⟨h1, h2, h3⟩ |
    ⟨text, stN, ht, hins, rfl⟩
  · exact docsOrdered_of_core h1 h2 h3 ho
  · exact docsOrdered_of_core h1 h2 h3 (applyRaced_ordered raced _ ho)
  · exact insertDoc_ordered hins (applyRaced_ordered raced _ ho)

theorem uploadTail_contents {st st2 : SysState} {final : String} {sz : Nat}
    {ex : Except String String} {w rem : Bool} {raced : List (String × String)}
    {r : UpResult}
    (h : uploadTail st final sz ex w rem raced = (st2, r))
    (hc : contentsNonWs st) (hraced : ∀ p ∈ raced, pyStrip p.2 ≠ "") :
    contentsNonWs st2 := by
  rcases uploadTail_core h with ⟨h1, -, -⟩ | ⟨h1, -, -⟩ |
    ⟨text, stN, ht, hins, rfl⟩
  · exact contentsNonWs_of_core h1 hc
  · exact contentsNonWs_of_core h1 (applyRaced_contents raced hraced _ hc)
  · exact insertDoc_contents hins (applyRaced_contents raced hraced _ hc) ht

/-! Lemmas about the whole upload handler. -/

theorem uploadPdf_eq_tail {st : SysState} {fn : String} {n sz : Nat}
    {ex : Except String String} {w rem : Bool} {raced : List (String × String)}
    {fuel : Nat} {final : String}
    (hread : (readLoop n).1 = ReadOutcome.done sz)
    (hfn : fn ≠ "")
    (hext : lowerStr (splitext fn).2 = ".pdf")
    (hres : resolveLoop st.fsFiles (st.docs.map Doc.filename) (splitext fn).1
      (splitext fn).2 fuel 1 fn = some final) :
    uploadPdf st "application/pdf" fn n ex w rem raced fuel =
      some (uploadTail st final sz ex w rem raced) := by
  unfold uploadPdf
  rw [if_neg (by simp)]
  rw [hread]
  simp [hfn, hext, hres]

theorem uploadPdf_state {st st2 : SysState} {ct fn : String} {n : Nat}
    {ex : Except String String} {w rem : Bool} {raced : List (String × String)}
    {fuel : Nat} {r : UpResult}
    (h : uploadPdf st ct fn n ex w rem raced fuel = some (st2, r)) :
    (st2 = st ∧ ∃ code detail, r = UpResult.err code detail) ∨
      ∃ final sz, resolveLoop st.fsFiles (st.docs.map Doc.filename)
          (splitext fn).1 (splitext fn).2 fuel 1 fn = some final ∧
        uploadTail st final sz ex w rem raced = (st2, r) := by
  unfold uploadPdf at h
  split at h
  · simp only [Option.some.injEq, Prod.mk.injEq] at h
    exact Or.inl ⟨h.1.symm, _, _, h.2.symm⟩
  · split at h
    · simp only [Option.some.injEq, Prod.mk.injEq] at h
      exact Or.inl ⟨h.1.symm, _, _, h.2.symm⟩
    · rename_i sz heq
      split at h
      · simp only [Option.some.injEq, Prod.mk.injEq] at h
        exact Or.inl ⟨h.1.symm, _, _, h.2.symm⟩
      · split at h
        · simp only [Option.some.injEq, Prod.mk.injEq] at h
          exact Or.inl ⟨h.1.symm, _, _, h.2.symm⟩
        · split at h
          · cases h
          · rename_i final hres
            simp only [Option.some.injEq] at h
            exact Or.inr ⟨final, sz, hres, h⟩

theorem uploadPdf_nodup {st st2 : SysState} {ct fn : String} {n : Nat}
    {ex : Except String String} {w rem : Bool} {raced : List (String × String)}
    {fuel : Nat} {r : UpResult}
    (h : uploadPdf st ct fn n ex w rem raced fuel = some (st2, r))
    (hn : filenamesNodup st) : filenamesNodup st2 := by
  rcases uploadPdf_state h with ⟨rfl, -⟩ | ⟨final, sz, -, htail⟩
  · exact hn
  · exact uploadTail_nodup htail hn

theorem uploadPdf_ordered {st st2 : SysState} {ct fn : String} {n : Nat}
    {ex : Except String String} {w rem : Bool} {raced : List (String × String)}
    {fuel : Nat} {r : UpResult}
    (h : uploadPdf st ct fn n ex w rem raced fuel = some (st2, r))
    (ho : docsOrdered st) : docsOrdered st2 := by
  rcases uploadPdf_state h with ⟨rfl, -⟩ | ⟨final, sz, -, htail⟩
  · exact ho
  · exact uploadTail_ordered htail ho

theorem uploadPdf_contents {st st2 : SysState} {ct fn : String} {n : Nat}
    {ex : Except String String} {w rem : Bool} {raced : List (String × String)}
    {fuel : Nat} {r : UpResult}
    (h : uploadPdf st ct fn n ex w rem raced fuel = some (st2, r))
    (hc : contentsNonWs st) (hraced : ∀ p ∈ raced, pyStrip p.2 ≠ "") :
    contentsNonWs st2 := by
  rcases uploadPdf_state h with ⟨rfl, -⟩ | ⟨final, sz, -, htail⟩
  · exact hc
  · exact uploadTail_contents htail hc hraced

theorem uploadPdf_ok_facts {st st2 : SysState} {ct fn : String} {n : Nat}
    {ex : Except String String} {w rem : Bool} {raced : List (String × String)}
    {fuel : Nat} {f : String} {s2 tl : Nat}
    (h : uploadPdf st ct fn n ex w rem raced fuel =
      some (st2, UpResult.ok f s2 tl)) :
    f ∉ st.fsFiles ∧ st2.fsFiles = st.fsFiles ++ [f] ∧ st2.now = st.now ∧
      ∃ d : Doc, st2.docs.getLast? = some d ∧ d.filename = f ∧
        d.uploadTime = st.now ∧ pyStrip d.content ≠ "" := by
  rcases uploadPdf_state h with ⟨rfl, code, detail, hr⟩ | ⟨final, sz, hres, htail⟩
  · cases hr
  · obtain ⟨hf, hfs, hnow, text, -, htext, hdocs⟩ := uploadTail_ok_facts htail
    subst hf
    obtain ⟨hfree, -⟩ := resolveLoop_free _ _ _ _ fuel 1 fn f hres
    refine ⟨hfree, hfs, hnow,
      ⟨(applyRaced { st with fsFiles := st.fsFiles ++ [f] } raced).nextId,
        f, st.now, text⟩, ?_, rfl, rfl, htext⟩
    rw [hdocs]
    exact List.getLast?_concat _

/-! Lemmas about the latest-document selections. -/

theorem foldl_latest_eq_getLast {R : Doc → Doc → Prop}
    (f : Option Doc → Doc → Option Doc)
    (hf : ∀ m d, R m d → f (some m) d = some d) :
    ∀ (l : List Doc) (m : Doc), List.Chain' R (m :: l) →
      l.foldl f (some m) = (m :: l).getLast? := by
  intro l
  induction l with
  | nil =>
    intro m _
    simp
  | cons d rest ih =>
    intro m hchain
    rw [List.chain'_cons] at hchain
    obtain ⟨hmd, hrest⟩ := hchain
    rw [List.foldl_cons, hf m d hmd, List.getLast?_cons_cons]
    exact ih d hrest

theorem latestByIdQ_eq_getLast (docs : List Doc)
    (h : List.Chain' (fun a b => a.id < b.id) docs) :
    latestByIdQ docs = docs.getLast? := by
  cases docs with
  | nil => rfl
  | cons m rest =>
    unfold latestByIdQ
    rw [List.foldl_cons]
    have h0 : latestStepId none m = some m := rfl
    rw [h0]
    exact foldl_latest_eq_getLast latestStepId
      (fun a b hab => by simp [latestStepId, hab]) rest m h

theorem latestBySpecOrder_eq_getLast (docs : List Doc)
    (h : List.Chain' (fun a b => a.id < b.id ∧ a.uploadTime ≤ b.uploadTime)
      docs) :
    latestBySpecOrder docs = docs.getLast? := by
  cases docs with
  | nil => rfl
  | cons m rest =>
    unfold latestBySpecOrder
    rw [List.foldl_cons]
    have h0 : latestStepTime none m = some m := rfl
    rw [h0]
    refine foldl_latest_eq_getLast latestStepTime ?_ rest m h
    intro a b hab
    obtain ⟨hid, htime⟩ := hab
    rcases Nat.lt_or_ge a.uploadTime b.uploadTime with hlt | hge
    · simp [latestStepTime, hlt]
    · have heq : a.uploadTime = b.uploadTime := Nat.le_antisymm htime hge
      simp [latestStepTime, heq, hid]

/-! Lemmas about the ask endpoint and remaining helpers. -/

theorem pyStrip_empty : pyStrip "" = "" := rfl

theorem ne_empty_of_pyStrip_ne {s : String} (h : pyStrip s ≠ "") : s ≠ "" := by
  intro hs
  subst hs
  exact h pyStrip_empty

theorem advance_ordered {st : SysState} (dt : Nat) (ho : docsOrdered st) :
    docsOrdered (advance st dt) := by
  obtain ⟨hchain, hbound⟩ := ho
  refine ⟨hchain, ?_⟩
  intro d hd
  obtain ⟨h1, h2⟩ := hbound d hd
  exact ⟨h1, by
    show d.uploadTime ≤ st.now + dt
    omega⟩

theorem ask_endpoint_success {st : SysState} {q : String}
    {engine : Except String String} {d : Doc}
    (hq : pyStrip q ≠ "") (hl : latestByIdQ st.docs = some d)
    (hc : pyStrip d.content ≠ "") :
    ask_endpoint st q engine false =
      ⟨200, some (ask_question q d.content engine), some d.filename, none,
        true, true⟩ := by
  unfold ask_endpoint
  rw [if_neg hq]
  simp only [Bool.false_eq_true, if_false]
  rw [hl]
  simp [hc]

theorem ask_question_error {q context e : String} (hc : context ≠ "") :
    ask_question q context (Except.error e) =
      "Error processing your question: " ++ e := by
  unfold ask_question
  rw [if_neg hc]

theorem uploadTail_err500_generic {st st2 : SysState} {final : String}
    {sz : Nat} {ex : Except String String} {w rem : Bool}
    {raced : List (String × String)} {d : String}
    (h : uploadTail st final sz ex w rem raced = (st2, UpResult.err 500 d)) :
    d = "Failed to save file" ∨ d = "Failed to save document to database" ∨
      d = "An unexpected error occurred" := by
  cases w with
  | false => simp_all [uploadTail]
  | true =>
    cases ex with
    | error e =>
      cases rem <;> simp_all [uploadTail]
    | ok text =>
      by_cases ht : pyStrip text = ""
      · cases rem <;> simp_all [uploadTail]
      · cases hins : insertDoc
            (applyRaced { st with fsFiles := st.fsFiles ++ [final] } raced)
            final text with
        | ok stN => simp_all [uploadTail]
        | error e2 => cases rem <;> simp_all [uploadTail]

theorem uploadPdf_err500_generic {st st2 : SysState} {ct fn : String} {n : Nat}
    {ex : Except String String} {w rem : Bool} {raced : List (String × String)}
    {fuel : Nat} {d : String}
    (h : uploadPdf st ct fn n ex w rem raced fuel =
      some (st2, UpResult.err 500 d)) :
    d = "Failed to save file" ∨ d = "Failed to save document to database" ∨
      d = "An unexpected error occurred" := by
  unfold uploadPdf at h
  split at h
  · simp at h
  · split at h
    · simp at h
    · split at h
      · simp at h
      · split at h
        · simp at h
        · split at h
          · cases h
          · simp only [Option.some.injEq] at h
            exact uploadTail_err500_generic h

/-! Claim theorems. -/

/-- Claim C1: the claim states that any failure of the external
retrieval/LLM collaborator during the answer pipeline is reported as an
EngineError (HTTP 500) and never surfaces as a successful 200 answer.
The code refutes this: ask_question in src/backend/qa_engine.py catches
the collaborator exception and returns its text as an ordinary answer
string, so ask_endpoint answers 200 with that string and the 500 handler
of src/backend/main.py lines 219-224 is unreachable.  This theorem
evaluates the model at a failing input: one stored document, engine
raising an exception with text boom, yielding status 200 and the error
text as the answer. -/
theorem c1_engine_failure_surfaces_as_200 :
    (ask_endpoint stOne "What is this?" (Except.error "boom") false).status =
        200 ∧
      (ask_endpoint stOne "What is this?" (Except.error "boom") false).answer =
        some "Error processing your question: boom" ∧
      (ask_endpoint stOne "What is this?" (Except.error "boom") false).status ≠
        500 := by
  decide

/-- Claim C8: an upload whose body exceeds the 10 MiB ceiling aborts the
incremental read with a 400 ValidationError before the full body is
buffered (the buffered byte count at the abort stays at or below the
ceiling, strictly below the body size), the state is unchanged, so no
Document is created and no file is retained. -/
theorem c8_size_ceiling (st : SysState) (fn : String) (n : Nat)
    (ex : Except String String) (w rem : Bool)
    (raced : List (String × String)) (fuel : Nat)
    (h : MAX_FILE_SIZE < n) :
    uploadPdf st "application/pdf" fn n ex w rem raced fuel =
        some (st, UpResult.err 400 "File size exceeds maximum limit of 10.0MB") ∧
      ∃ b c, (readLoop n).1 = ReadOutcome.tooLarge b c ∧
        b ≤ MAX_FILE_SIZE ∧ b < n := by
  obtain ⟨b, c, heq, hle, hlt⟩ := readLoop_aborts n h
  constructor
  · unfold uploadPdf
    rw [if_neg (by simp), heq]
  · exact ⟨b, c, heq, hle, hlt⟩

/-- Witness for C8 at the concrete body size one byte over the ceiling:
the hypothesis holds and the upload is rejected with the 400 size
error without touching the state. -/
theorem c8_size_ceiling_witness :
    uploadPdf stInit "application/pdf" "name.pdf" 10485761 (Except.ok "text")
        true true [] 3 =
      some (stInit, UpResult.err 400 "File size exceeds maximum limit of 10.0MB") :=
  (c8_size_ceiling stInit "name.pdf" 10485761 (Except.ok "text") true true [] 3
    (by decide)).1

/-- Claim C9: a question that strips to the empty string is rejected by
the ask handler with a 400 ValidationError before any session is opened:
the response records that the store was not queried and the external
engine was not called, whatever the state, the engine oracle and the
database health are. -/
theorem c9_empty_question (st : SysState) (q : String)
    (eng : Except String String) (dbF : Bool) (hq : pyStrip q = "") :
    ask_endpoint st q eng dbF =
      ⟨400, none, none, some "Question cannot be empty", false, false⟩ := by
  unfold ask_endpoint
  rw [if_pos hq]

/-- Witness for C9 at a concrete whitespace-only question. -/
theorem c9_empty_question_witness :
    ask_endpoint stOne "   " (Except.ok "irrelevant") true =
      ⟨400, none, none, some "Question cannot be empty", false, false⟩ :=
  c9_empty_question stOne "   " (Except.ok "irrelevant") true (by decide)

/-- Claim C10: during the size-bounded read, the body bytes held in
memory (buffer plus the chunk in flight) never exceed the 10 MiB ceiling
plus one 1 MiB chunk, for every body size; and when the read aborts, the
buffered bytes have never exceeded the ceiling itself — the loop stops
accumulating as soon as the cumulative size first exceeds the ceiling. -/
theorem c10_buffer_bound (n : Nat) :
    (∀ x ∈ (readLoop n).2, x ≤ MAX_FILE_SIZE + CHUNK_SIZE) ∧
      (∀ b c, (readLoop n).1 = ReadOutcome.tooLarge b c →
        b ≤ MAX_FILE_SIZE ∧ MAX_FILE_SIZE < c) := by
  constructor
  · exact readChunksLoop_trace_le (chunkSizes n) 0 (chunkSizes_le n)
      (Nat.zero_le _)
  · intro b c h
    exact readChunksLoop_tooLarge_le (chunkSizes n) 0 b c (Nat.zero_le _) h

/-- Witness for C10 at the concrete body size one byte over the ceiling:
the final in-memory count is within the bound and the abort happened
with the buffer at exactly the ceiling. -/
theorem c10_buffer_bound_witness :
    (10485761 ≤ MAX_FILE_SIZE + CHUNK_SIZE) ∧
      (10485760 ≤ MAX_FILE_SIZE ∧ MAX_FILE_SIZE < 10485761) :=
  ⟨(c10_buffer_bound 10485761).1 10485761 (by decide),
    (c10_buffer_bound 10485761).2 10485760 10485761 (by decide)⟩

/-- Claim C5: the collision-resolution loop, started with counter 1 on
the original candidate, returns exactly the first candidate in the
sequence orig, base_1 ext, base_2 ext, ... that passes the filesystem
check and the store check simultaneously — every earlier candidate fails
at least one of the two checks; and concretely, uploading name.pdf a
second time yields a Document named name_1.pdf and a third time yields
name_2.pdf. -/
theorem c5_collision_resolution :
    (∀ (fs db : List String) (base ext orig : String) (fuel : Nat)
        (r : String),
      resolveLoop fs db base ext fuel 1 orig = some r →
      ∃ m, r = mkCandidate base ext orig m ∧
        mkCandidate base ext orig m ∉ fs ∧ mkCandidate base ext orig m ∉ db ∧
        ∀ j < m,
          mkCandidate base ext orig j ∈ fs ∨ mkCandidate base ext orig j ∈ db) ∧
    uploadPdf ⟨["name.pdf"], [⟨1, "name.pdf", 0, "text"⟩], 2, 0⟩
        "application/pdf" "name.pdf" 100 (Except.ok "text") true true [] 5 =
      some (⟨["name.pdf", "name_1.pdf"],
        [⟨1, "name.pdf", 0, "text"⟩, ⟨2, "name_1.pdf", 0, "text"⟩], 3, 0⟩,
        UpResult.ok "name_1.pdf" 100 4) ∧
    uploadPdf ⟨["name.pdf", "name_1.pdf"],
        [⟨1, "name.pdf", 0, "text"⟩, ⟨2, "name_1.pdf", 0, "text"⟩], 3, 0⟩
        "application/pdf" "name.pdf" 100 (Except.ok "text") true true [] 5 =
      some (⟨["name.pdf", "name_1.pdf", "name_2.pdf"],
        [⟨1, "name.pdf", 0, "text"⟩, ⟨2, "name_1.pdf", 0, "text"⟩,
          ⟨3, "name_2.pdf", 0, "text"⟩], 4, 0⟩,
        UpResult.ok "name_2.pdf" 100 4) := by
  refine ⟨?_, by decide, by decide⟩
  intro fs db base ext orig fuel r h
  have h0 : resolveLoop fs db base ext fuel (0 + 1)
      (mkCandidate base ext orig 0) = some r := h
  obtain ⟨m, -, hr, hffs, hfdb, hall⟩ := resolveLoop_char fs db base ext orig
    fuel 0 r h0
  exact ⟨m, hr, hffs, hfdb, fun j hj => hall j (Nat.zero_le j) hj⟩

/-- Witness for C5 on a concrete collision: both checks hold for
name_1.pdf, the original name fails them, and the characterisation is
obtained by applying the theorem to the concretely evaluated loop. -/
theorem c5_collision_resolution_witness :
    ∃ m, "name_1.pdf" = mkCandidate "name" ".pdf" "name.pdf" m ∧
      mkCandidate "name" ".pdf" "name.pdf" m ∉ ["name.pdf"] ∧
      mkCandidate "name" ".pdf" "name.pdf" m ∉ ["name.pdf"] ∧
      ∀ j < m, mkCandidate "name" ".pdf" "name.pdf" j ∈ ["name.pdf"] ∨
        mkCandidate "name" ".pdf" "name.pdf" j ∈ ["name.pdf"] :=
  c5_collision_resolution.1 ["name.pdf"] ["name.pdf"] "name" ".pdf" "name.pdf"
    5 "name_1.pdf" (by decide)

/-- Counterexample to claim C4: the claim states that a failure of the
compensating delete is only logged, never escalated, and never replaces
the original error.  In the code the os.remove calls at
src/backend/main.py lines 139 and 154 are not guarded: on an extraction
failure whose cleanup delete also fails, the delete exception escapes to
the outer handler, the caller receives the generic 500 instead of the
original 422 ExtractionError, and the file stays on disk — the same
input with a succeeding delete yields the 422. -/
theorem c4_counterexample :
    upStatusOf (uploadPdf stInit "application/pdf" "name.pdf" 100
        (Except.error "pdf parse failure") true false [] 3) = some 500 ∧
      uploadPdf stInit "application/pdf" "name.pdf" 100
          (Except.error "pdf parse failure") true false [] 3 =
        some (⟨["name.pdf"], [], 1, 0⟩,
          UpResult.err 500 "An unexpected error occurred") ∧
      upStatusOf (uploadPdf stInit "application/pdf" "name.pdf" 100
        (Except.error "pdf parse failure") true true [] 3) = some 422 := by
  decide

/-- Claim C4 as amended: when ingestion fails after the file was written
— extraction raised or extracted only whitespace, or the store write
failed — the compensating delete is attempted, but it is not shielded.
Extraction branch: if the delete succeeds the original 422
ExtractionError is reported and the state is fully restored; if the
delete itself fails, its exception escalates to the outer handler, which
replaces the original error with the generic 500 response, and the file
is retained on disk.  Store-write branch (the insert hits the unique
constraint because a raced request committed the resolved name): if the
delete succeeds the original 500 StorageError "Failed to save document
to database" is reported and the file is removed (the filesystem
component returns to exactly the starting files); if the delete fails,
the outer handler answers the generic 500 and the file remains on disk
(the filesystem component still holds the written file). -/
theorem c4_unshielded_compensating_delete (st : SysState) (fn : String)
    (n sz : Nat) (ex : Except String String) (t : String)
    (raced : List (String × String)) (fuel : Nat) (final : String)
    (hread : (readLoop n).1 = ReadOutcome.done sz)
    (hfn : fn ≠ "")
    (hext : lowerStr (splitext fn).2 = ".pdf")
    (hres : resolveLoop st.fsFiles (st.docs.map Doc.filename) (splitext fn).1
      (splitext fn).2 fuel 1 fn = some final) :
    (((∃ e, ex = Except.error e) ∨ ∃ t2, ex = Except.ok t2 ∧ pyStrip t2 = "") →
      uploadPdf st "application/pdf" fn n ex true true raced fuel =
          some (st, UpResult.err 422 "Failed to extract text from PDF") ∧
        uploadPdf st "application/pdf" fn n ex true false raced fuel =
          some ({ st with fsFiles := st.fsFiles ++ [final] },
            UpResult.err 500 "An unexpected error occurred")) ∧
    (pyStrip t ≠ "" →
      final ∈ (applyRaced { st with fsFiles := st.fsFiles ++ [final] }
        raced).docs.map Doc.filename →
      uploadPdf st "application/pdf" fn n (Except.ok t) true true raced fuel =
          some ({ applyRaced { st with fsFiles := st.fsFiles ++ [final] }
              raced with fsFiles := st.fsFiles },
            UpResult.err 500 "Failed to save document to database") ∧
        uploadPdf st "application/pdf" fn n (Except.ok t) true false raced
            fuel =
          some (applyRaced { st with fsFiles := st.fsFiles ++ [final] } raced,
            UpResult.err 500 "An unexpected error occurred") ∧
        (applyRaced { st with fsFiles := st.fsFiles ++ [final] }
          raced).fsFiles = st.fsFiles ++ [final]) := by
  have hfree : final ∉ st.fsFiles :=
    (resolveLoop_free st.fsFiles (st.docs.map Doc.filename) (splitext fn).1
      (splitext fn).2 fuel 1 fn final hres).1
  constructor
  · intro hex
    constructor
    · rw [uploadPdf_eq_tail hread hfn hext hres]
      rw [uploadTail_extract_fail st final sz ex raced hex hfree]
    · rw [uploadPdf_eq_tail hread hfn hext hres]
      rw [uploadTail_extract_fail_noremove st final sz ex raced hex]
  · intro ht hmem
    have hrfs : (applyRaced { st with fsFiles := st.fsFiles ++ [final] }
        raced).fsFiles = st.fsFiles ++ [final] :=
      (applyRaced_frame raced { st with fsFiles := st.fsFiles ++ [final] }).1
    refine ⟨?_, ?_, hrfs⟩
    · rw [uploadPdf_eq_tail hread hfn hext hres]
      rw [uploadTail_db_conflict st final sz t raced ht hmem]
      rw [hrfs, erase_append_self hfree]
    · rw [uploadPdf_eq_tail hread hfn hext hres]
      rw [uploadTail_db_conflict_noremove st final sz t raced ht hmem]

/-- Witness for the amended C4 at a concrete input over an empty
deployment, exercising both branches.  Extraction branch: extraction
raises on report.pdf; a succeeding delete yields the 422 with the state
restored, a failing delete yields the generic 500 with the file
retained.  Store-write branch: a raced request commits report.pdf before
the insert; a succeeding delete yields the database 500 with the file
removed, a failing delete yields the generic 500 with the file still
listed. -/
theorem c4_unshielded_compensating_delete_witness :
    (uploadPdf stInit "application/pdf" "report.pdf" 50
        (Except.error "bad xref") true true [("report.pdf", "raced text")] 3 =
      some (stInit, UpResult.err 422 "Failed to extract text from PDF")) ∧
    (uploadPdf stInit "application/pdf" "report.pdf" 50
        (Except.error "bad xref") true false [("report.pdf", "raced text")] 3 =
      some ({ stInit with fsFiles := stInit.fsFiles ++ ["report.pdf"] },
        UpResult.err 500 "An unexpected error occurred")) ∧
    (uploadPdf stInit "application/pdf" "report.pdf" 50 (Except.ok "text")
        true true [("report.pdf", "raced text")] 3 =
      some ({ applyRaced
          { stInit with fsFiles := stInit.fsFiles ++ ["report.pdf"] }
          [("report.pdf", "raced text")] with fsFiles := stInit.fsFiles },
        UpResult.err 500 "Failed to save document to database")) ∧
    (uploadPdf stInit "application/pdf" "report.pdf" 50 (Except.ok "text")
        true false [("report.pdf", "raced text")] 3 =
      some (applyRaced
          { stInit with fsFiles := stInit.fsFiles ++ ["report.pdf"] }
          [("report.pdf", "raced text")],
        UpResult.err 500 "An unexpected error occurred")) :=
  ⟨(c4_unshielded_compensating_delete stInit "report.pdf" 50 50
      (Except.error "bad xref") "text" [("report.pdf", "raced text")] 3
      "report.pdf" (by decide) (by decide) (by decide) (by decide)).1
      (Or.inl ⟨"bad xref", rfl⟩) |>.1,
    (c4_unshielded_compensating_delete stInit "report.pdf" 50 50
      (Except.error "bad xref") "text" [("report.pdf", "raced text")] 3
      "report.pdf" (by decide) (by decide) (by decide) (by decide)).1
      (Or.inl ⟨"bad xref", rfl⟩) |>.2,
    ((c4_unshielded_compensating_delete stInit "report.pdf" 50 50
      (Except.error "bad xref") "text" [("report.pdf", "raced text")] 3
      "report.pdf" (by decide) (by decide) (by decide) (by decide)).2
      (by decide) (by decide)).1,
    ((c4_unshielded_compensating_delete stInit "report.pdf" 50 50
      (Except.error "bad xref") "text" [("report.pdf", "raced text")] 3
      "report.pdf" (by decide) (by decide) (by decide) (by decide)).2
      (by decide) (by decide)).2.1⟩

/-- Claim C7: when text extraction raises, or returns text that strips
to the empty string, the upload fails with the 422 extraction error, the
returned state equals the starting state — the just-written file has
been deleted and no Document row was created — and, as a consequence,
the invariant that every persisted Document has non-whitespace content
is preserved by every upload (raced concurrent inserts being uploads of
the same gated handler). -/
theorem c7_extraction_gate :
    (∀ (st : SysState) (fn : String) (n sz : Nat) (ex : Except String String)
        (raced : List (String × String)) (fuel : Nat) (final : String),
      (readLoop n).1 = ReadOutcome.done sz → fn ≠ "" →
      lowerStr (splitext fn).2 = ".pdf" →
      resolveLoop st.fsFiles (st.docs.map Doc.filename) (splitext fn).1
        (splitext fn).2 fuel 1 fn = some final →
      ((∃ e, ex = Except.error e) ∨ ∃ t, ex = Except.ok t ∧ pyStrip t = "") →
      uploadPdf st "application/pdf" fn n ex true true raced fuel =
        some (st, UpResult.err 422 "Failed to extract text from PDF")) ∧
    (∀ (st st2 : SysState) (ct fn : String) (n : Nat)
        (ex : Except String String) (w rem : Bool)
        (raced : List (String × String)) (fuel : Nat) (r : UpResult),
      uploadPdf st ct fn n ex w rem raced fuel = some (st2, r) →
      contentsNonWs st → (∀ p ∈ raced, pyStrip p.2 ≠ "") →
      contentsNonWs st2) := by
  constructor
  · intro st fn n sz ex raced fuel final hread hfn hext hres hex
    have hfree : final ∉ st.fsFiles :=
      (resolveLoop_free st.fsFiles (st.docs.map Doc.filename) (splitext fn).1
        (splitext fn).2 fuel 1 fn final hres).1
    rw [uploadPdf_eq_tail hread hfn hext hres]
    rw [uploadTail_extract_fail st final sz ex raced hex hfree]
  · intro st st2 ct fn n ex w rem raced fuel r h hc hraced
    exact uploadPdf_contents h hc hraced

/-- Witness for C7 at a concrete input: extraction returns
whitespace-only text for blank.pdf over the one-document deployment; the
upload answers 422 and leaves the state untouched, and the preserved
state still satisfies the non-whitespace-content invariant. -/
theorem c7_extraction_gate_witness :
    uploadPdf stOne "application/pdf" "blank.pdf" 40 (Except.ok "  \n ")
        true true [] 3 =
      some (stOne, UpResult.err 422 "Failed to extract text from PDF") ∧
    contentsNonWs stOne :=
  ⟨c7_extraction_gate.1 stOne "blank.pdf" 40 40 (Except.ok "  \n ") [] 3
      "blank.pdf" (by decide) (by decide) (by decide) (by decide)
      (Or.inr ⟨"  \n ", rfl, by decide⟩),
    c7_extraction_gate.2 stOne stOne "application/pdf" "blank.pdf" 40
      (Except.ok "  \n ") true true [] 3
      (UpResult.err 422 "Failed to extract text from PDF") (by decide)
      (by unfold contentsNonWs; decide) (by simp)⟩

/-- Claim C6: filenames stay unique in the Document store at all times —
every upload preserves the no-duplicate-filenames invariant of the
table; the storage layer refuses an insert whose filename already exists
(the backstop constraint); and when the check-then-reserve race makes a
concurrent request commit the resolved filename between this request's
pre-check and its insert, the constraint violation is surfaced by the
handler as the 500 StorageError response instead of crashing — the
handler still returns a well-defined response. -/
theorem c6_unique_filenames :
    (∀ (st st2 : SysState) (ct fn : String) (n : Nat)
        (ex : Except String String) (w rem : Bool)
        (raced : List (String × String)) (fuel : Nat) (r : UpResult),
      uploadPdf st ct fn n ex w rem raced fuel = some (st2, r) →
      filenamesNodup st → filenamesNodup st2) ∧
    (∀ (st : SysState) (fn c : String),
      fn ∈ st.docs.map Doc.filename →
      insertDoc st fn c =
        Except.error "UNIQUE constraint failed: documents.filename") ∧
    (∀ (st : SysState) (fn : String) (n sz : Nat) (t : String)
        (raced : List (String × String)) (fuel : Nat) (final : String),
      (readLoop n).1 = ReadOutcome.done sz → fn ≠ "" →
      lowerStr (splitext fn).2 = ".pdf" →
      resolveLoop st.fsFiles (st.docs.map Doc.filename) (splitext fn).1
        (splitext fn).2 fuel 1 fn = some final →
      pyStrip t ≠ "" →
      final ∈ (applyRaced { st with fsFiles := st.fsFiles ++ [final] }
        raced).docs.map Doc.filename →
      ∃ st2, uploadPdf st "application/pdf" fn n (Except.ok t) true true raced
          fuel =
        some (st2, UpResult.err 500 "Failed to save document to database")) := by
  refine ⟨?_, insertDoc_error_of_mem, ?_⟩
  · intro st st2 ct fn n ex w rem raced fuel r h hn
    exact uploadPdf_nodup h hn
  · intro st fn n sz t raced fuel final hread hfn hext hres ht hmem
    refine ⟨{ applyRaced { st with fsFiles := st.fsFiles ++ [final] } raced with
      fsFiles := ((applyRaced { st with fsFiles := st.fsFiles ++ [final] }
        raced).fsFiles).erase final }, ?_⟩
    rw [uploadPdf_eq_tail hread hfn hext hres]
    rw [uploadTail_db_conflict st final sz t raced ht hmem]

/-- Witness for C6 at a concrete input: over the empty deployment a
raced concurrent upload commits name.pdf between the pre-check and the
insert; the constraint fires and the handler answers the 500 storage
error, and the uniqueness invariant of the resulting concrete run
holds. -/
theorem c6_unique_filenames_witness :
    (∃ st2, uploadPdf stInit "application/pdf" "name.pdf" 100 (Except.ok "text")
        true true [("name.pdf", "raced text")] 3 =
      some (st2, UpResult.err 500 "Failed to save document to database")) ∧
    insertDoc stOne "doc.pdf" "text" =
      Except.error "UNIQUE constraint failed: documents.filename" ∧
    filenamesNodup stOne :=
  ⟨c6_unique_filenames.2.2 stInit "name.pdf" 100 100 "text"
      [("name.pdf", "raced text")] 3 "name.pdf" (by decide) (by decide)
      (by decide) (by decide) (by decide) (by decide),
    c6_unique_filenames.2.1 stOne "doc.pdf" "text" (by decide),
    c6_unique_filenames.1 stOne stOne "text/plain" "x.pdf" 0 (Except.ok "t")
      true true [] 1 (UpResult.err 400
        "Invalid file type: text/plain. Only PDF files are allowed.")
      (by decide) (by unfold filenamesNodup; decide)⟩

/-- Counterexample to claim C3: the claim states that no response of the
ask operation, success or failure, ever contains the text of an internal
exception.  In the code ask_question returns the caught exception text
inside the answer string, so the 200 response of the ask operation
contains it verbatim. -/
theorem c3_counterexample :
    (ask_endpoint stOne "What is this?" (Except.error "secret internal detail")
        false).status = 200 ∧
      ∃ a b, (ask_endpoint stOne "What is this?"
          (Except.error "secret internal detail") false).answer =
        some (a ++ "secret internal detail" ++ b) := by
  refine ⟨by decide, "Error processing your question: ", "", by decide⟩

/-- Claim C3 as amended: every 500-class error response carries only one
of the fixed generic messages — the upload handler answers 500 only with
"Failed to save file", "Failed to save document to database" or "An
unexpected error occurred", and the ask handler answers 500 only with
the generic database message — never the internal exception text; but
when the external engine fails, the ask operation returns a 200 success
whose answer embeds the exception text. -/
theorem c3_generic_500_bodies :
    (∀ (st st2 : SysState) (ct fn : String) (n : Nat)
        (ex : Except String String) (w rem : Bool)
        (raced : List (String × String)) (fuel : Nat) (d : String),
      uploadPdf st ct fn n ex w rem raced fuel =
        some (st2, UpResult.err 500 d) →
      d = "Failed to save file" ∨ d = "Failed to save document to database" ∨
        d = "An unexpected error occurred") ∧
    (∀ (st : SysState) (q : String) (eng : Except String String) (dbF : Bool),
      (ask_endpoint st q eng dbF).status = 500 →
      (ask_endpoint st q eng dbF).detail =
        some "Database error occurred while retrieving document") ∧
    (∀ (st : SysState) (q e : String) (d : Doc),
      pyStrip q ≠ "" → latestByIdQ st.docs = some d → pyStrip d.content ≠ "" →
      (ask_endpoint st q (Except.error e) false).status = 200 ∧
      (ask_endpoint st q (Except.error e) false).answer =
        some ("Error processing your question: " ++ e)) := by
  refine ⟨?_, ?_, ?_⟩
  · intro st st2 ct fn n ex w rem raced fuel d h
    exact uploadPdf_err500_generic h
  · intro st q eng dbF hst
    unfold ask_endpoint at hst ⊢
    by_cases hq : pyStrip q = ""
    · rw [if_pos hq] at hst
      simp at hst
    · rw [if_neg hq] at hst ⊢
      cases dbF with
      | true => simp
      | false =>
        simp only [Bool.false_eq_true, if_false] at hst ⊢
        cases hl : latestByIdQ st.docs with
        | none =>
          rw [hl] at hst
          simp at hst
        | some d =>
          rw [hl] at hst
          by_cases hc : pyStrip d.content = ""
          · simp [hc] at hst
          · simp [hc] at hst
  · intro st q e d hq hl hc
    rw [ask_endpoint_success hq hl hc]
    rw [ask_question_error (ne_empty_of_pyStrip_ne hc)]
    exact ⟨rfl, rfl⟩

/-- Witness for the amended C3 at concrete inputs: a concrete failing
write yields a 500 whose detail is one of the generic messages, and a
concrete engine failure yields the 200 answer embedding the exception
text. -/
theorem c3_generic_500_bodies_witness :
    ("Failed to save file" = "Failed to save file" ∨
      "Failed to save file" = "Failed to save document to database" ∨
      "Failed to save file" = "An unexpected error occurred") ∧
    (ask_endpoint stOne "What?" (Except.error "boom") false).status = 200 ∧
    (ask_endpoint stOne "What?" (Except.error "boom") false).answer =
      some ("Error processing your question: " ++ "boom") :=
  ⟨c3_generic_500_bodies.1 stOne stOne "application/pdf" "x.pdf" 10
      (Except.ok "t") false true [] 2 "Failed to save file" (by decide),
    (c3_generic_500_bodies.2.2 stOne "What?" "boom"
        ⟨1, "doc.pdf", 0, "Some content"⟩ (by decide) (by decide)
        (by decide)).1,
    (c3_generic_500_bodies.2.2 stOne "What?" "boom"
        ⟨1, "doc.pdf", 0, "Some content"⟩ (by decide) (by decide)
        (by decide)).2⟩

/-- Claim C2: on every store state the system can reach (ids strictly
increasing in insertion order, upload times non-decreasing, an invariant
every upload preserves) with at least one Document, the implemented
selection — order by id descending, limit 1, at src/backend/main.py
lines 193-196 — picks exactly the Document the specification describes:
most recent uploadedAt with ties broken by highest id; and end to end,
uploading A then B (both succeeding, with any clock advance in between)
and then asking returns B's resolved filename as the source document
name, never A's. -/
theorem c2_latest_selection :
    (∀ st : SysState, docsOrdered st → st.docs ≠ [] →
      latestByIdQ st.docs = latestBySpecOrder st.docs) ∧
    (∀ (st st1 st2 : SysState) (dt : Nat) (ctA ctB fnA fnB : String)
        (nA nB : Nat) (exA exB : Except String String) (wA rA wB rB : Bool)
        (racedA racedB : List (String × String)) (fuelA fuelB : Nat)
        (fA fB : String) (szA szB tlA tlB : Nat) (q : String)
        (eng : Except String String),
      docsOrdered st →
      uploadPdf st ctA fnA nA exA wA rA racedA fuelA =
        some (st1, UpResult.ok fA szA tlA) →
      uploadPdf (advance st1 dt) ctB fnB nB exB wB rB racedB fuelB =
        some (st2, UpResult.ok fB szB tlB) →
      pyStrip q ≠ "" →
      (ask_endpoint st2 q eng false).documentName = some fB ∧ fB ≠ fA) := by
  constructor
  · intro st ho hne
    obtain ⟨hchain, -⟩ := ho
    rw [latestByIdQ_eq_getLast _ (hchain.imp (fun a b hab => hab.1)),
      latestBySpecOrder_eq_getLast _ hchain]
  · intro st st1 st2 dt ctA ctB fnA fnB nA nB exA exB wA rA wB rB racedA
      racedB fuelA fuelB fA fB szA szB tlA tlB q eng ho hA hB hq
    have ho1 : docsOrdered st1 := uploadPdf_ordered hA ho
    have ho1d : docsOrdered (advance st1 dt) := advance_ordered dt ho1
    have ho2 : docsOrdered st2 := uploadPdf_ordered hB ho1d
    obtain ⟨hfreeB, hfsB, hnowB, dB, hlast, hfB, hupB, hcB⟩ :=
      uploadPdf_ok_facts hB
    obtain ⟨hfreeA, hfsA, hnowA, dA, hlastA, hfA2, hupA, hcA⟩ :=
      uploadPdf_ok_facts hA
    have hfAmem : fA ∈ st1.fsFiles := by
      rw [hfsA]
      simp
    have hBne : fB ≠ fA := by
      intro hEq
      subst hEq
      exact hfreeB hfAmem
    have hlatest : latestByIdQ st2.docs = some dB := by
      rw [latestByIdQ_eq_getLast _ (ho2.1.imp (fun a b hab => hab.1))]
      exact hlast
    refine ⟨?_, hBne⟩
    rw [ask_endpoint_success hq hlatest hcB]
    show some dB.filename = some fB
    rw [hfB]

/-- Witness for C2: the concrete run uploading a.pdf then b.pdf over a
fresh deployment with the clock advancing by 5 in between; asking then
names b.pdf, not a.pdf. -/
theorem c2_latest_selection_witness :
    (ask_endpoint ⟨["a.pdf", "b.pdf"],
        [⟨1, "a.pdf", 0, "ta"⟩, ⟨2, "b.pdf", 5, "tb"⟩], 3, 5⟩ "What?"
        (Except.ok "fine") false).documentName = some "b.pdf" ∧
      "b.pdf" ≠ "a.pdf" :=
  c2_latest_selection.2 stInit ⟨["a.pdf"], [⟨1, "a.pdf", 0, "ta"⟩], 2, 0⟩
    ⟨["a.pdf", "b.pdf"], [⟨1, "a.pdf", 0, "ta"⟩, ⟨2, "b.pdf", 5, "tb"⟩], 3, 5⟩
    5 "application/pdf" "application/pdf" "a.pdf" "b.pdf" 100 100
    (Except.ok "ta") (Except.ok "tb") true true true true [] [] 3 3
    "a.pdf" "b.pdf" 100 100 2 2 "What?" (Except.ok "fine")
    ⟨List.chain'_nil, by decide⟩ (by decide) (by decide) (by decide)
